import Mathlib

/-!
Shallow embedding of `src/analyse.py` (`get_user_contributions`), the
contribution-aggregation pipeline of vrenjith/github-contributions.

Modelling conventions:
* Timestamps are seconds. `datetime.strptime(s, "%Y-%m-%dT%H:%M:%SZ")` of a
  pull request's creation time is an arbitrary second count; `strptime` of a
  calendar date string `"%Y-%m-%d"` yields the midnight instant of that date,
  modelled as `midnight d = d * 86400` for a calendar-date index `d`.
* Every HTTP fetch outcome is a `Fetch α`: `.ok` carries the parsed JSON
  payload, `.err` is a `requests.exceptions.RequestException` (the only
  exception class the code catches).
* JSON fields that may be absent or null are `Option`s. `pull.get('created_at')`
  being `None` makes `strptime` raise `TypeError`; `pull.get('review_comments_url')`
  being `None` makes `.replace` raise `AttributeError`. Those exceptions are not
  caught anywhere, so the pipeline's outcome type is
  `Except PyExn (Option Result)`: `.error` is an uncaught exception escaping the
  function, `.ok none` is the function returning `None`, `.ok (some r)` a result.
* The paginated repository enumeration collapses to one `Fetch (List Repo)`:
  any page failure makes the whole function return `None` (line 60), success
  yields the concatenated repository list.
* `issue_comments` models the issue-comment list GitHub exposes for each pull
  request; `analyse.py` never requests it, and the field is present only so
  that specification-level statements about issue comments can be stated.
-/

/-- Outcome of one HTTP fetch: parsed payload, or a caught request exception. -/
inductive Fetch (α : Type) where
  | ok (val : α)
  | err
deriving DecidableEq

/-- Python exceptions that `get_user_contributions` can raise uncaught. -/
inductive PyExn where
  | typeError
  | attrError
deriving DecidableEq

/-- A review (or issue comment) object: author login and body, both nullable. -/
structure Review where
  author : Option String
  body : Option String
deriving DecidableEq

/-- A commit detail object's `stats`: `.get('additions', 0)` / `.get('deletions', 0)`
default missing values to 0, so both are plain counts. -/
structure CommitDetail where
  additions : Nat
  deletions : Nat
deriving DecidableEq

/-- A pull request object as the walker reads it. `commits` is the fetch of the
commit list, each commit carrying the fetch of its detail object.
`reviews_locator` is `none` when `review_comments_url` is absent/null
(triggering `AttributeError`); otherwise it carries the outcome of fetching the
derived reviews URL. -/
structure Pull where
  number : Nat
  created_at : Option Nat
  author : Option String
  commits : Fetch (List (Fetch CommitDetail))
  reviews_locator : Option (Fetch (List Review))
  issue_comments : Fetch (List Review)
deriving DecidableEq

/-- A repository: its `full_name` and the fetch of its pull-request list. -/
structure Repo where
  full_name : String
  pulls : Fetch (List Pull)
deriving DecidableEq

/-- Resolved inputs of one run. `profile` is the user-profile fetch: `.ok none`
means the `name` key is absent, `.ok (some v)` that it holds `v` (possibly null). -/
structure Input where
  username : String
  token : String
  start_date : Option Nat
  end_date : Option Nat
  repos : Fetch (List Repo)
  profile : Fetch (Option (Option String))
deriving DecidableEq

/-- The result dictionary assembled at lines 144-154. -/
structure Result where
  user_name : Option String
  pull_requests_reviewed : Nat
  valid_comments : Nat
  lines_added : Nat
  lines_deleted : Nat
  lines_modified : Nat
  top_repositories : List (String × Nat)
  start_date : Option Nat
  end_date : Option Nat
deriving DecidableEq

/-- The mutable accumulator of the walk (lines 37-41). `tally` models the
insertion-ordered `repo_contributions` dict. -/
structure St where
  reviewed : Nat
  valid : Nat
  added : Nat
  deleted : Nat
  tally : List (String × Nat)
deriving DecidableEq

/-- `strptime(d, "%Y-%m-%d")`: the midnight instant of calendar date `d`. -/
def midnight (d : Nat) : Nat := d * 86400

/-- The date filter of line 85, as the condition for KEEPING the pull:
skip iff `(start and created < start) or (end and created > end)`. -/
def inWindow (sd ed : Option Nat) (ts : Nat) : Bool :=
  !((match sd with
     | some d => decide (ts < midnight d)
     | none => false) ||
    (match ed with
     | some d => decide (midnight d < ts)
     | none => false))

/-- `pull.get('user', {}).get('login') == username` (a null login never equals
the non-empty username string). -/
def authorIs (a : Option String) (username : String) : Bool :=
  match a with
  | some s => s == username
  | none => false

/-- `review.get('body') and len(review.get('body')) > 10` (line 129): a null or
empty body is falsy. -/
def validBody (b : Option String) : Bool :=
  match b with
  | none => false
  | some s => !(s == "") && decide (s.length > 10)

/-- One commit of the author path (lines 101-114): a failed detail fetch is
logged and skipped; a successful one adds its stats to the running totals. -/
def processCommit (st : St) (c : Fetch CommitDetail) : St :=
  match c with
  | .err => st
  | .ok d => { st with added := st.added + d.additions, deleted := st.deleted + d.deletions }

/-- One review (lines 126-130): an authored review always bumps
`pull_requests_reviewed`; `valid_comments` additionally requires a valid body. -/
def processReview (username : String) (st : St) (rv : Review) : St :=
  if authorIs rv.author username then
    { st with reviewed := st.reviewed + 1,
              valid := if validBody rv.body then st.valid + 1 else st.valid }
  else st

def processReviews (username : String) (st : St) (rvs : List Review) : St :=
  rvs.foldl (processReview username) st

/-- `repo_contributions[name] = 0` (line 67): dict assignment keeps the key's
original position when present, appends otherwise. -/
def setZero (t : List (String × Nat)) (k : String) : List (String × Nat) :=
  if t.any (fun p => p.1 == k) then t.map (fun p => if p.1 == k then (p.1, 0) else p)
  else t ++ [(k, 0)]

/-- `repo_contributions[name] += 1` (line 90) on the defaultdict. -/
def incKey (t : List (String × Nat)) (k : String) : List (String × Nat) :=
  if t.any (fun p => p.1 == k) then t.map (fun p => if p.1 == k then (p.1, p.2 + 1) else p)
  else t ++ [(k, 1)]

/-- Lines 116-130: derive the reviews URL from `review_comments_url` (raising
`AttributeError` when that field is null), fetch it (a caught failure means the
pull contributes nothing further), and scan the reviews. -/
def fetchReviews (username : String) (st : St) (p : Pull) : Except PyExn St :=
  match p.reviews_locator with
  | none => .error .attrError
  | some .err => .ok st
  | some (.ok rvs) => .ok (processReviews username st rvs)

/-- One iteration of the `for pull in pulls` loop (lines 80-130).
`strptime(None)` raises `TypeError` (line 84). A pull outside the window is
skipped (line 87). On the author path the tally is bumped (line 90) before the
commit fetch; a failed commit fetch hits `continue` (line 98), so the reviews
of that same pull are never fetched. Reviews are otherwise fetched regardless
of authorship. -/
def processPull (u : String) (sd ed : Option Nat) (name : String) (st : St) (p : Pull) :
    Except PyExn St :=
  match p.created_at with
  | none => .error .typeError
  | some ts =>
    if inWindow sd ed ts then
      if authorIs p.author u then
        match p.commits with
        | .err => .ok { st with tally := incKey st.tally name }
        | .ok cs => fetchReviews u (cs.foldl processCommit { st with tally := incKey st.tally name }) p
      else fetchReviews u st p
    else .ok st

/-- The pull loop with uncaught exceptions propagating out. -/
def runPulls (u : String) (sd ed : Option Nat) (name : String) (st : St) :
    List Pull → Except PyExn St
  | [] => .ok st
  | p :: ps =>
    match processPull u sd ed name st p with
    | .error e => .error e
    | .ok st2 => runPulls u sd ed name st2 ps

/-- One iteration of the `for repo in all_repos` loop (lines 64-130): the tally
entry is zero-initialized first (line 67); a failed pull-list fetch skips the
repository (line 76). -/
def processRepo (u : String) (sd ed : Option Nat) (st : St) (r : Repo) : Except PyExn St :=
  let st1 := { st with tally := setZero st.tally r.full_name }
  match r.pulls with
  | .err => .ok st1
  | .ok ps => runPulls u sd ed r.full_name st1 ps

/-- The repository loop with uncaught exceptions propagating out. -/
def runRepos (u : String) (sd ed : Option Nat) (st : St) : List Repo → Except PyExn St
  | [] => .ok st
  | r :: rs =>
    match processRepo u sd ed st r with
    | .error e => .error e
    | .ok st2 => runRepos u sd ed st2 rs

/-- Stable descending insertion by count: the incoming element precedes the
first resident element whose count does not exceed its own. -/
def stableInsert (p : String × Nat) : List (String × Nat) → List (String × Nat)
  | [] => [p]
  | q :: t => if q.2 ≤ p.2 then p :: q :: t else q :: stableInsert p t

/-- `sorted(repo_contributions.items(), key=lambda item: item[1], reverse=True)`:
Python's sort is stable, and `reverse=True` preserves the original order of
equal keys, which insertion with a non-strict comparison reproduces. -/
def sortDesc : List (String × Nat) → List (String × Nat)
  | [] => []
  | p :: t => stableInsert p (sortDesc t)

/-- Line 132: the sorted tally truncated to three entries. -/
def topRepos (t : List (String × Nat)) : List (String × Nat) :=
  (sortDesc t).take 3

/-- The zero accumulator (lines 37-41). -/
def st0 : St := ⟨0, 0, 0, 0, []⟩

/-- Lines 132-154: top-3 selection, display-name lookup with fallback to the
raw username on failure or absent key, and result assembly. -/
def finalize (inp : Input) (st : St) : Result :=
  { user_name :=
      match inp.profile with
      | .err => some inp.username
      | .ok none => some inp.username
      | .ok (some v) => v,
    pull_requests_reviewed := st.reviewed,
    valid_comments := st.valid,
    lines_added := st.added,
    lines_deleted := st.deleted,
    lines_modified := st.added + st.deleted,
    top_repositories := topRepos st.tally,
    start_date := inp.start_date,
    end_date := inp.end_date }

/-- `get_user_contributions`: missing credentials and enumeration failure both
return `None`; an uncaught exception in the walk escapes; otherwise the result
dictionary is assembled. -/
def get_user_contributions (inp : Input) : Except PyExn (Option Result) :=
  if inp.username = "" ∨ inp.token = "" then .ok none
  else
    match inp.repos with
    | .err => .ok none
    | .ok repos =>
      match runRepos inp.username inp.start_date inp.end_date st0 repos with
      | .error e => .error e
      | .ok st => .ok (some (finalize inp st))

/-! ### Lemmas about the stable descending sort -/

theorem mem_stableInsert {x p : String × Nat} {l : List (String × Nat)} :
    x ∈ stableInsert p l ↔ x = p ∨ x ∈ l := by
  induction l with
  | nil => simp [stableInsert]
  | cons q t ih =>
    simp only [stableInsert]
    split
    · simp
    · simp only [List.mem_cons, ih]
      tauto

theorem pairwise_stableInsert {p : String × Nat} {l : List (String × Nat)}
    (h : l.Pairwise (fun a b => b.2 ≤ a.2)) :
    (stableInsert p l).Pairwise (fun a b => b.2 ≤ a.2) := by
  induction l with
  | nil => simp [stableInsert]
  | cons q t ih =>
    rw [List.pairwise_cons] at h
    obtain ⟨hq, ht⟩ := h
    simp only [stableInsert]
    split
    · rename_i hle
      refine List.Pairwise.cons ?_ (List.Pairwise.cons hq ht)
      intro b hb
      rcases List.mem_cons.mp hb with rfl | hb
      · exact hle
      · exact le_trans (hq b hb) hle
    · rename_i hgt
      push_neg at hgt
      refine List.Pairwise.cons ?_ (ih ht)
      intro b hb
      rcases mem_stableInsert.mp hb with rfl | hb
      · exact le_of_lt hgt
      · exact hq b hb

theorem sorted_sortDesc (l : List (String × Nat)) :
    (sortDesc l).Pairwise (fun a b => b.2 ≤ a.2) := by
  induction l with
  | nil => simp [sortDesc]
  | cons p t ih => exact pairwise_stableInsert ih

theorem filter_stableInsert (c : Nat) (p : String × Nat) (l : List (String × Nat)) :
    (stableInsert p l).filter (fun x => decide (x.2 = c)) =
      (if p.2 = c then [p] else []) ++ l.filter (fun x => decide (x.2 = c)) := by
  induction l with
  | nil =>
    simp only [stableInsert, List.filter]
    split <;> simp_all
  | cons q t ih =>
    simp only [stableInsert]
    split
    · rename_i hle
      by_cases hp : p.2 = c <;> by_cases hq : q.2 = c <;>
        simp [List.filter_cons, hp, hq]
    · rename_i hgt
      push_neg at hgt
      rw [List.filter_cons, List.filter_cons, ih]
      by_cases hp : p.2 = c <;> by_cases hq : q.2 = c
      · exact absurd (hp.trans hq.symm) (Nat.ne_of_lt hgt)
      · simp [hp, hq]
      · simp [hp, hq]
      · simp [hp, hq]

/-- Stability of the sort: restricting to any one count value preserves the
original (first-seen) order. -/
theorem filter_sortDesc (c : Nat) (l : List (String × Nat)) :
    (sortDesc l).filter (fun x => decide (x.2 = c)) =
      l.filter (fun x => decide (x.2 = c)) := by
  induction l with
  | nil => rfl
  | cons p t ih =>
    simp only [sortDesc]
    rw [filter_stableInsert, ih, List.filter_cons]
    by_cases hp : p.2 = c <;> simp [hp]

theorem length_topRepos (l : List (String × Nat)) : (topRepos l).length ≤ 3 := by
  simp [topRepos, List.length_take]

theorem pairwise_topRepos (l : List (String × Nat)) :
    (topRepos l).Pairwise (fun a b => b.2 ≤ a.2) :=
  (sorted_sortDesc l).sublist (List.take_sublist 3 (sortDesc l))

/-! ### Lemmas about review scanning and the loops -/

theorem processReviews_eq (u : String) (st : St) (rvs : List Review) :
    processReviews u st rvs =
      { st with
        reviewed := st.reviewed + rvs.countP (fun rv => authorIs rv.author u),
        valid := st.valid + rvs.countP (fun rv => authorIs rv.author u && validBody rv.body) } := by
  induction rvs generalizing st with
  | nil => simp [processReviews, List.countP_nil]
  | cons rv t ih =>
    obtain ⟨a, b, c, d, e⟩ := st
    simp only [processReviews, List.foldl] at *
    rw [ih]
    simp only [processReview]
    by_cases h1 : authorIs rv.author u <;> by_cases h2 : validBody rv.body <;>
      simp [h1, h2, List.countP_cons, St.mk.injEq] <;> omega

theorem runRepos_append (u : String) (sd ed : Option Nat) (st : St) (l1 l2 : List Repo) :
    runRepos u sd ed st (l1 ++ l2) =
      match runRepos u sd ed st l1 with
      | .error e => .error e
      | .ok st2 => runRepos u sd ed st2 l2 := by
  induction l1 generalizing st with
  | nil => simp [runRepos]
  | cons r rs ih =>
    simp only [List.cons_append, runRepos]
    cases processRepo u sd ed st r with
    | error e => rfl
    | ok st2 => exact ih st2

theorem guc_ok_elim {inp : Input} {r : Result}
    (h : get_user_contributions inp = .ok (some r)) :
    ∃ repos st, inp.repos = .ok repos ∧
      runRepos inp.username inp.start_date inp.end_date st0 repos = .ok st ∧
      r = finalize inp st := by
  unfold get_user_contributions at h
  split at h
  · simp at h
  · split at h
    · simp at h
    · rename_i repos hrepos
      split at h
      · simp at h
      · rename_i st hrun
        simp only [Except.ok.injEq, Option.some.injEq] at h
        exact ⟨repos, st, hrepos, hrun, h.symm⟩

/-! ### Issue comments are never read: erasure machinery for C1 -/

/-- Erase a pull's issue comments (data `analyse.py` never requests). -/
def stripComments (p : Pull) : Pull := { p with issue_comments := Fetch.err }

def stripCommentsRepo (r : Repo) : Repo :=
  { r with pulls :=
      match r.pulls with
      | .err => .err
      | .ok ps => .ok (ps.map stripComments) }

def stripCommentsInput (inp : Input) : Input :=
  { inp with repos :=
      match inp.repos with
      | .err => .err
      | .ok rs => .ok (rs.map stripCommentsRepo) }

theorem processPull_stripComments (u : String) (sd ed : Option Nat) (n : String)
    (st : St) (p : Pull) :
    processPull u sd ed n st (stripComments p) = processPull u sd ed n st p := rfl

theorem runPulls_stripComments (u : String) (sd ed : Option Nat) (n : String)
    (st : St) (ps : List Pull) :
    runPulls u sd ed n st (ps.map stripComments) = runPulls u sd ed n st ps := by
  induction ps generalizing st with
  | nil => rfl
  | cons p t ih =>
    simp only [List.map_cons, runPulls, processPull_stripComments]
    cases processPull u sd ed n st p with
    | error e => rfl
    | ok st2 => exact ih st2

theorem processRepo_stripComments (u : String) (sd ed : Option Nat) (st : St) (r : Repo) :
    processRepo u sd ed st (stripCommentsRepo r) = processRepo u sd ed st r := by
  obtain ⟨nm, pl⟩ := r
  cases pl with
  | err => rfl
  | ok ps =>
    simp only [stripCommentsRepo, processRepo, runPulls_stripComments]

theorem runRepos_stripComments (u : String) (sd ed : Option Nat) (st : St) (rs : List Repo) :
    runRepos u sd ed st (rs.map stripCommentsRepo) = runRepos u sd ed st rs := by
  induction rs generalizing st with
  | nil => rfl
  | cons r t ih =>
    simp only [List.map_cons, runRepos, processRepo_stripComments]
    cases processRepo u sd ed st r with
    | error e => rfl
    | ok st2 => exact ih st2

/-! ### Concrete runs used by counterexamples and witnesses -/

def rvLongAlice : Review := ⟨some "alice", some "this is a long review body"⟩
def rvShortAlice : Review := ⟨some "alice", some "short"⟩
def rvBob : Review := ⟨some "bob", some "looks good to me friend"⟩

def pEx1 : Pull := ⟨1, some 100, some "alice", .ok [.ok ⟨10, 2⟩], some (.ok [rvBob]), .ok []⟩
def pEx2 : Pull := ⟨2, some 50, some "bob", .err, some (.ok [rvLongAlice, rvShortAlice]), .ok []⟩
def exInp : Input :=
  ⟨"alice", "tok", none, none, .ok [⟨"octo/alpha", .ok [pEx1]⟩, ⟨"octo/beta", .ok [pEx2]⟩], .err⟩
def exRes : Result :=
  ⟨some "alice", 2, 1, 10, 2, 12, [("octo/alpha", 1), ("octo/beta", 0)], none, none⟩

def cmC1 : Review := ⟨some "alice", some "a sufficiently long comment"⟩
def pullC1a : Pull := ⟨1, some 0, some "bob", .ok [], some (.ok []), .ok [cmC1]⟩
def pullC1b : Pull := ⟨1, some 0, some "bob", .ok [], some (.ok []), .ok []⟩
def inpC1a : Input := ⟨"alice", "tok", none, none, .ok [⟨"r", .ok [pullC1a]⟩], .err⟩
def inpC1b : Input := ⟨"alice", "tok", none, none, .ok [⟨"r", .ok [pullC1b]⟩], .err⟩
def resC1 : Result := ⟨some "alice", 0, 0, 0, 0, 0, [("r", 0)], none, none⟩

def pullC2e : Pull := ⟨1, some 0, some "alice", .err, some (.ok [rvLongAlice]), .ok []⟩
def pullC2o : Pull := ⟨1, some 0, some "alice", .ok [], some (.ok [rvLongAlice]), .ok []⟩
def inpC2e : Input := ⟨"alice", "tok", none, none, .ok [⟨"r", .ok [pullC2e]⟩], .err⟩
def inpC2o : Input := ⟨"alice", "tok", none, none, .ok [⟨"r", .ok [pullC2o]⟩], .err⟩
def resC2e : Result := ⟨some "alice", 0, 0, 0, 0, 0, [("r", 1)], none, none⟩
def resC2o : Result := ⟨some "alice", 1, 1, 0, 0, 0, [("r", 1)], none, none⟩

def pullC3a : Pull := ⟨1, some 1, some "alice", .ok [.ok ⟨5, 2⟩], some (.ok [rvLongAlice]), .ok []⟩
def pullC3b : Pull := ⟨1, some 0, some "alice", .ok [.ok ⟨5, 2⟩], some (.ok [rvLongAlice]), .ok []⟩
def inpC3a : Input := ⟨"alice", "tok", none, some 0, .ok [⟨"r", .ok [pullC3a]⟩], .err⟩
def inpC3b : Input := ⟨"alice", "tok", none, some 0, .ok [⟨"r", .ok [pullC3b]⟩], .err⟩
def resC3a : Result := ⟨some "alice", 0, 0, 0, 0, 0, [("r", 0)], none, some 0⟩
def resC3b : Result := ⟨some "alice", 1, 1, 5, 2, 7, [("r", 1)], none, some 0⟩

def pullC4a : Pull := ⟨1, none, some "bob", .ok [], some (.ok []), .ok []⟩
def pullC4b : Pull := ⟨1, some 0, some "bob", .ok [], none, .ok []⟩
def inpC4a : Input := ⟨"alice", "tok", none, none, .ok [⟨"r", .ok [pullC4a]⟩], .err⟩
def inpC4b : Input := ⟨"alice", "tok", none, none, .ok [⟨"r", .ok [pullC4b]⟩], .err⟩

def repoGood : Repo := ⟨"good", .ok []⟩
def repoBad : Repo := ⟨"bad", .err⟩
def inpEnumErr : Input := ⟨"alice", "tok", none, none, .err, .err⟩
def inpC8 : Input := ⟨"alice", "tok", none, none, .ok ([repoGood] ++ repoBad :: []), .err⟩

def pullC9 : Pull := ⟨1, some 5, some "bob", .err, some (.ok [rvLongAlice, rvShortAlice]), .ok []⟩

def inpC10 : Input := ⟨"alice", "tok", none, none,
  .ok [⟨"r1", .ok []⟩, ⟨"r2", .ok []⟩, ⟨"r3", .ok []⟩, ⟨"r4", .ok []⟩], .err⟩
def resC10 : Result := ⟨some "alice", 0, 0, 0, 0, 0, [("r1", 0), ("r2", 0), ("r3", 0)], none, none⟩
def pullC10 : Pull := ⟨1, some 0, some "alice", .ok [], some (.ok []), .ok []⟩
def inpC10b : Input := ⟨"alice", "tok", none, none,
  .ok [⟨"r1", .ok []⟩, ⟨"r2", .ok [pullC10]⟩, ⟨"r3", .ok []⟩, ⟨"r4", .ok []⟩], .err⟩
def resC10b : Result := ⟨some "alice", 0, 0, 0, 0, 0, [("r2", 1), ("r1", 0), ("r3", 0)], none, none⟩

/-! ### Claims -/

/-- Claim C1 counterexample: a pull request that passes the date filter carries
an issue comment authored by the target user with a body longer than the
threshold, yet the run's `valid_comments` stays 0, and the output is identical
to the run without that comment — the comment did not increment the count. -/
theorem C1_cex :
    authorIs cmC1.author "alice" = true ∧ validBody cmC1.body = true ∧
    get_user_contributions inpC1a = Except.ok (some resC1) ∧
    get_user_contributions inpC1b = Except.ok (some resC1) ∧
    resC1.valid_comments = 0 :=
  ⟨rfl, rfl, rfl, rfl, rfl⟩

/-- Claim C1, amended: issue comments are never fetched — the pipeline's output
is invariant under erasing every pull request's issue-comment list, so issue
comments never contribute to the valid-comment count (which comes from reviews
alone). -/
theorem C1_thm (inp : Input) :
    get_user_contributions (stripCommentsInput inp) = get_user_contributions inp := by
  obtain ⟨u, tk, sd, ed, rp, pf⟩ := inp
  cases rp with
  | err => rfl
  | ok rs =>
    simp only [stripCommentsInput, get_user_contributions, runRepos_stripComments]
    rfl

/-- Claim C2 counterexample: a pull authored by the target user whose commit
fetch fails, carrying a target-user review with a long body; the run yields
`pull_requests_reviewed = 0` and `valid_comments = 0`, while the identical run
with a successful (empty) commit fetch yields 1 and 1 — so the `continue` on a
commit-fetch failure skips the same pull's reviews, not just its commit
contribution. -/
theorem C2_cex :
    pullC2e = { pullC2o with commits := Fetch.err } ∧
    get_user_contributions inpC2e = Except.ok (some resC2e) ∧
    resC2e.pull_requests_reviewed = 0 ∧ resC2e.valid_comments = 0 ∧
    get_user_contributions inpC2o = Except.ok (some resC2o) ∧
    resC2o.pull_requests_reviewed = 1 ∧ resC2o.valid_comments = 1 :=
  ⟨rfl, rfl, rfl, rfl, rfl, rfl, rfl⟩

/-- Claim C2, amended: when fetching the commit list of an in-window pull
authored by the target user fails, the repository tally keeps its increment but
everything else about this pull — commit stats AND its reviews — is skipped,
and processing continues (no exception) with the next pull request. -/
theorem C2_thm (u : String) (sd ed : Option Nat) (n : String) (st : St) (p : Pull)
    (ts : Nat) (h1 : p.created_at = some ts) (h2 : inWindow sd ed ts = true)
    (h3 : authorIs p.author u = true) (h4 : p.commits = Fetch.err) :
    processPull u sd ed n st p = Except.ok { st with tally := incKey st.tally n } := by
  simp [processPull, h1, h2, h3, h4]

theorem C2_wit :
    pullC2e.created_at = some 0 ∧ inWindow none none 0 = true ∧
    authorIs pullC2e.author "alice" = true ∧ pullC2e.commits = Fetch.err ∧
    processPull "alice" none none "r" st0 pullC2e =
      Except.ok { st0 with tally := incKey st0.tally "r" } :=
  ⟨rfl, rfl, rfl, rfl, C2_thm "alice" none none "r" st0 pullC2e 0 rfl rfl rfl rfl⟩

/-- Claim C3 counterexample: with end date `0` given, a pull created one second
into that end calendar date (timestamp `1`, i.e. 00:00:01 of day 0) IS skipped
by the date filter — the run records nothing for it — whereas the same pull
created exactly at the midnight instant of the end date is processed. -/
theorem C3_cex :
    pullC3a.created_at = some (midnight 0 + 1) ∧
    get_user_contributions inpC3a = Except.ok (some resC3a) ∧
    resC3a.pull_requests_reviewed = 0 ∧ resC3a.lines_added = 0 ∧
    resC3a.top_repositories = [("r", 0)] ∧
    get_user_contributions inpC3b = Except.ok (some resC3b) ∧
    resC3b.lines_added = 5 :=
  ⟨rfl, rfl, rfl, rfl, rfl, rfl, rfl⟩

/-- Claim C3, amended: the parsed end bound is the midnight instant of the end
date, so the inclusive window ends at 00:00:00 of the end day: a pull passes
the end filter iff its timestamp is at most that instant; any pull created
strictly later on the end calendar date is skipped, leaving the state
untouched. -/
theorem C3_thm :
    (∀ d ts, inWindow none (some d) ts = true ↔ ts ≤ midnight d) ∧
    (∀ d t, 0 < t → inWindow none (some d) (midnight d + t) = false) ∧
    (∀ u n st p d ts, p.created_at = some ts → midnight d < ts →
      processPull u none (some d) n st p = Except.ok st) := by
  refine ⟨?_, ?_, ?_⟩
  · intro d ts
    simp [inWindow]
  · intro d t ht
    simp [inWindow]
    omega
  · intro u n st p d ts h1 h2
    have hw : inWindow none (some d) ts = false := by
      simp [inWindow]
      omega
    simp [processPull, h1, hw]

theorem C3_wit :
    (pullC3a.created_at = some 1 ∧ midnight 0 < 1 ∧
      processPull "alice" none (some 0) "r" st0 pullC3a = Except.ok st0) ∧
    (0 < 1 ∧ inWindow none (some 0) (midnight 0 + 1) = false) :=
  ⟨⟨rfl, by decide, C3_thm.2.2 "alice" "r" st0 pullC3a 0 1 rfl (by decide)⟩,
   ⟨by decide, C3_thm.2.1 0 1 (by decide)⟩⟩

/-- Claim C4 counterexample: a pull request whose `created_at` is missing makes
the run abort with an uncaught `TypeError` (from `strptime(None, ...)`), and
one whose `review_comments_url` is missing makes it abort with an uncaught
`AttributeError` (from `None.replace(...)`): the failure is not isolated to the
sibling unit and an exception escapes the pipeline with no Result. -/
theorem C4_cex :
    pullC4a.created_at = none ∧
    get_user_contributions inpC4a = Except.error PyExn.typeError ∧
    pullC4b.reviews_locator = none ∧
    get_user_contributions inpC4b = Except.error PyExn.attrError :=
  ⟨rfl, rfl, rfl, rfl⟩

/-- Claim C4, amended: only transport failures (caught request exceptions) are
isolated to their scope. A malformed pull object — missing creation timestamp,
or missing review-comments locator on a pull past the date filter — raises an
uncaught exception in the walker, and such an exception propagates out of the
whole run, discarding all partial results. -/
theorem C4_thm :
    (∀ u sd ed n st p, p.created_at = none →
      processPull u sd ed n st p = Except.error PyExn.typeError) ∧
    (∀ u sd ed n st p ts, p.created_at = some ts → inWindow sd ed ts = true →
      authorIs p.author u = false → p.reviews_locator = none →
      processPull u sd ed n st p = Except.error PyExn.attrError) ∧
    (∀ inp repos e, ¬inp.username = "" → ¬inp.token = "" →
      inp.repos = Fetch.ok repos →
      runRepos inp.username inp.start_date inp.end_date st0 repos = Except.error e →
      get_user_contributions inp = Except.error e) := by
  refine ⟨?_, ?_, ?_⟩
  · intro u sd ed n st p h
    simp [processPull, h]
  · intro u sd ed n st p ts h1 h2 h3 h4
    simp [processPull, h1, h2, h3, fetchReviews, h4]
  · intro inp repos e hu ht hr hrun
    simp [get_user_contributions, hu, ht, hr, hrun]

theorem C4_wit :
    (pullC4a.created_at = none ∧
      processPull "alice" none none "r" st0 pullC4a = Except.error PyExn.typeError) ∧
    (pullC4b.created_at = some 0 ∧ inWindow none none 0 = true ∧
      authorIs pullC4b.author "alice" = false ∧ pullC4b.reviews_locator = none ∧
      processPull "alice" none none "r" st0 pullC4b = Except.error PyExn.attrError) :=
  ⟨⟨rfl, C4_thm.1 "alice" none none "r" st0 pullC4a rfl⟩,
   ⟨rfl, rfl, rfl, rfl, C4_thm.2.1 "alice" none none "r" st0 pullC4b 0 rfl rfl rfl rfl⟩⟩

/-- Claim C5 (confirmed): every produced Result satisfies
`lines_modified = lines_added + lines_deleted`. -/
theorem C5_thm (inp : Input) (r : Result)
    (h : get_user_contributions inp = Except.ok (some r)) :
    r.lines_modified = r.lines_added + r.lines_deleted := by
  obtain ⟨repos, st, -, -, rfl⟩ := guc_ok_elim h
  rfl

theorem C5_wit :
    get_user_contributions exInp = Except.ok (some exRes) ∧
    exRes.lines_modified = exRes.lines_added + exRes.lines_deleted :=
  ⟨rfl, C5_thm exInp exRes rfl⟩

/-- Claim C6 (confirmed): in every produced Result, `top_repositories` has at
most 3 entries and is sorted by count descending; moreover it is exactly the
3-prefix of the stable descending sort of the run's own accumulator tally (the
state `runRepos` actually computed, whose entries sit in first-seen enumeration
order), and that sort provably keeps the entries of any one count value in that
tally's relative order — ties are broken by first-seen order. -/
theorem C6_thm (inp : Input) (r : Result)
    (h : get_user_contributions inp = Except.ok (some r)) :
    r.top_repositories.length ≤ 3 ∧
    r.top_repositories.Pairwise (fun a b => b.2 ≤ a.2) ∧
    ∃ repos st, inp.repos = Fetch.ok repos ∧
      runRepos inp.username inp.start_date inp.end_date st0 repos = Except.ok st ∧
      r.top_repositories = (sortDesc st.tally).take 3 ∧
      ∀ c, (sortDesc st.tally).filter (fun x => decide (x.2 = c)) =
        st.tally.filter (fun x => decide (x.2 = c)) := by
  obtain ⟨repos, st, hrep, hrun, rfl⟩ := guc_ok_elim h
  exact ⟨length_topRepos st.tally, pairwise_topRepos st.tally, repos, st, hrep, hrun,
    rfl, fun c => filter_sortDesc c st.tally⟩

theorem C6_wit :
    get_user_contributions exInp = Except.ok (some exRes) ∧
    (exRes.top_repositories.length ≤ 3 ∧
     exRes.top_repositories.Pairwise (fun a b => b.2 ≤ a.2) ∧
     ∃ repos st, exInp.repos = Fetch.ok repos ∧
       runRepos exInp.username exInp.start_date exInp.end_date st0 repos = Except.ok st ∧
       exRes.top_repositories = (sortDesc st.tally).take 3 ∧
       ∀ c, (sortDesc st.tally).filter (fun x => decide (x.2 = c)) =
         st.tally.filter (fun x => decide (x.2 = c))) :=
  ⟨rfl, C6_thm exInp exRes rfl⟩

/-- Claim C7 (confirmed): a review authored by the target user always bumps the
reviewed count by one and bumps the valid-comment count exactly when its body
is valid; a body is valid iff non-empty and strictly longer than 10 characters,
so a 10-character body does not count and an 11-character body does. -/
theorem C7_thm :
    (∀ u st rv, authorIs rv.author u = true →
      processReview u st rv =
        { st with reviewed := st.reviewed + 1,
                  valid := if validBody rv.body then st.valid + 1 else st.valid }) ∧
    (∀ s : String, validBody (some s) = true ↔ ¬s = "" ∧ s.length > 10) ∧
    validBody (some "0123456789") = false ∧
    validBody (some "0123456789x") = true := by
  refine ⟨?_, ?_, by decide, by decide⟩
  · intro u st rv h
    simp [processReview, h]
  · intro s
    simp [validBody]

theorem C7_wit :
    authorIs rvLongAlice.author "alice" = true ∧
    processReview "alice" st0 rvLongAlice =
      { st0 with reviewed := st0.reviewed + 1,
                 valid := if validBody rvLongAlice.body then st0.valid + 1 else st0.valid } :=
  ⟨rfl, C7_thm.1 "alice" st0 rvLongAlice rfl⟩

/-- A repository whose pull-list fetch fails behaves exactly like one with an
empty pull list, wherever it sits in the enumeration. -/
theorem runRepos_skipRepo (u : String) (sd ed : Option Nat) (st : St)
    (rs1 rs2 : List Repo) (rb : Repo) (h : rb.pulls = Fetch.err) :
    runRepos u sd ed st (rs1 ++ rb :: rs2) =
      runRepos u sd ed st (rs1 ++ { rb with pulls := Fetch.ok [] } :: rs2) := by
  rw [runRepos_append, runRepos_append]
  cases runRepos u sd ed st rs1 with
  | error e => rfl
  | ok st2 =>
    simp only [runRepos]
    have h1 : processRepo u sd ed st2 rb =
        Except.ok { st2 with tally := setZero st2.tally rb.full_name } := by
      simp [processRepo, h]
    have h2 : processRepo u sd ed st2 { rb with pulls := Fetch.ok [] } =
        Except.ok { st2 with tally := setZero st2.tally rb.full_name } := by
      simp [processRepo, runPulls]
    rw [h1, h2]

/-- Claim C8 (confirmed): a failed pull-list fetch for one repository only
zero-initializes that repository's tally entry and moves on — the run behaves
as if that repository had an empty pull list, so every other repository's
contributions still reach the Result; a fetch failure during repository
enumeration instead ends the run with no Result (`None`). -/
theorem C8_thm :
    (∀ u sd ed st r, r.pulls = Fetch.err →
      processRepo u sd ed st r =
        Except.ok { st with tally := setZero st.tally r.full_name }) ∧
    (∀ inp, ¬inp.username = "" → ¬inp.token = "" → inp.repos = Fetch.err →
      get_user_contributions inp = Except.ok none) ∧
    (∀ inp rs1 rs2 rb, inp.repos = Fetch.ok (rs1 ++ rb :: rs2) → rb.pulls = Fetch.err →
      get_user_contributions inp =
        get_user_contributions
          { inp with repos := Fetch.ok (rs1 ++ { rb with pulls := Fetch.ok [] } :: rs2) }) := by
  refine ⟨?_, ?_, ?_⟩
  · intro u sd ed st r h
    simp [processRepo, h]
  · intro inp hu ht hr
    simp [get_user_contributions, hu, ht, hr]
  · intro inp rs1 rs2 rb hr hb
    simp only [get_user_contributions, hr,
      runRepos_skipRepo inp.username inp.start_date inp.end_date st0 rs1 rs2 rb hb]
    rfl

theorem C8_wit :
    (repoBad.pulls = Fetch.err ∧
      processRepo "alice" none none st0 repoBad =
        Except.ok { st0 with tally := setZero st0.tally repoBad.full_name }) ∧
    (¬inpEnumErr.username = "" ∧ ¬inpEnumErr.token = "" ∧ inpEnumErr.repos = Fetch.err ∧
      get_user_contributions inpEnumErr = Except.ok none) ∧
    (inpC8.repos = Fetch.ok ([repoGood] ++ repoBad :: []) ∧ repoBad.pulls = Fetch.err ∧
      get_user_contributions inpC8 =
        get_user_contributions
          { inpC8 with repos := Fetch.ok ([repoGood] ++ { repoBad with pulls := Fetch.ok [] } :: []) }) :=
  ⟨⟨rfl, C8_thm.1 "alice" none none st0 repoBad rfl⟩,
   ⟨by decide, by decide, rfl,
    C8_thm.2.1 inpEnumErr (by decide) (by decide) rfl⟩,
   ⟨rfl, rfl, C8_thm.2.2 inpC8 [repoGood] [] repoBad rfl rfl⟩⟩

/-- Claim C9 (confirmed): an in-window pull authored by someone else leaves
`lines_added`, `lines_deleted` and the repository tally untouched (its commits
are never fetched), yet its review list is still fetched and scanned, bumping
the reviewed count by the number of target-user reviews and the valid-comment
count by the number of those with valid bodies. -/
theorem C9_thm (u : String) (sd ed : Option Nat) (n : String) (st : St) (p : Pull)
    (ts : Nat) (rvs : List Review)
    (h1 : p.created_at = some ts) (h2 : inWindow sd ed ts = true)
    (h3 : authorIs p.author u = false) (h4 : p.reviews_locator = some (Fetch.ok rvs)) :
    processPull u sd ed n st p =
      Except.ok { st with
        reviewed := st.reviewed + rvs.countP (fun rv => authorIs rv.author u),
        valid := st.valid + rvs.countP (fun rv => authorIs rv.author u && validBody rv.body) } := by
  simp [processPull, h1, h2, h3, fetchReviews, h4, processReviews_eq]

theorem C9_wit :
    pullC9.created_at = some 5 ∧ inWindow none none 5 = true ∧
    authorIs pullC9.author "alice" = false ∧
    pullC9.reviews_locator = some (Fetch.ok [rvLongAlice, rvShortAlice]) ∧
    processPull "alice" none none "r" st0 pullC9 =
      Except.ok { st0 with
        reviewed := st0.reviewed +
          ([rvLongAlice, rvShortAlice].countP (fun rv => authorIs rv.author "alice")),
        valid := st0.valid +
          ([rvLongAlice, rvShortAlice].countP
            (fun rv => authorIs rv.author "alice" && validBody rv.body)) } :=
  ⟨rfl, rfl, rfl, rfl,
   C9_thm "alice" none none "r" st0 pullC9 5 [rvLongAlice, rvShortAlice] rfl rfl rfl rfl⟩

/-- Claim C10 (confirmed): every enumerated repository's tally entry is
zero-initialized before its pulls are processed, so `top_repositories` lists
zero-count repositories when fewer than three have a positive count — with four
empty repositories and no authored pull anywhere, the top list is three
zero-count entries; with a single authored pull in `r2`, the remaining two
slots are still filled by zero-count repositories. -/
theorem C10_thm :
    get_user_contributions inpC10 = Except.ok (some resC10) ∧
    resC10.top_repositories = [("r1", 0), ("r2", 0), ("r3", 0)] ∧
    get_user_contributions inpC10b = Except.ok (some resC10b) ∧
    resC10b.top_repositories = [("r2", 1), ("r1", 0), ("r3", 0)] :=
  ⟨rfl, rfl, rfl, rfl⟩
